import Mathlib

/-!
Verification of the StripePaymentFlow reconciliation core.

The definitions below are a shallow embedding of the server code:

* `MemStorage` and its methods embed `src/server/storage.ts` (class `MemStorage`).
  JavaScript `Map`s are modelled as lists kept in insertion order; `Map.set`
  replaces the first entry with the given key in place or appends a new entry,
  `Map.get` finds the first entry with the key, `Map.delete` removes it.
  Timestamps (`new Date()`) are modelled as a `Nat` clock value passed to each
  operation; monetary `amount` fields are JavaScript numbers carrying pounds
  with fractions and are modelled as `ℚ`.
* The route handlers embed `src/server/routes.ts`.  Each handler is a pure
  function of the server state, the request, the provider response and the
  clock; handlers that talk to the payment provider additionally return a
  trace of the storage/provider calls they performed, one trace element per
  call in the source.
* JavaScript `Array.prototype.sort` (stable since ES2019) with the comparator
  `(a, b) => b.createdAt - a.createdAt` is modelled by the stable insertion
  sort `sortByKeyDesc`; for a consistent comparator every stable sort computes
  the same list.
* `Math.round` is modelled by `jsRound` (floor of x + 1/2).
-/

namespace StripeFlow

/-- JavaScript Math.round: floor of x + 1/2 (rounds halves up). -/
def jsRound (q : ℚ) : Int := Int.floor (q + 1/2)

/-- Payment row (shared schema, table `payments`). -/
structure Payment where
  id : Nat
  paymentIntentId : String
  amount : ℚ
  currency : String
  status : String
  customerEmail : Option String
  description : Option String
  cardLast4 : Option String
  paymentMethodType : Option String
  isLiveMode : Bool
  stripeFee : Option Int
  createdAt : Nat
  updatedAt : Nat
deriving DecidableEq, Repr

/-- Refund row (shared schema, table `refunds`). -/
structure Refund where
  id : Nat
  refundId : String
  paymentId : Nat
  paymentIntentId : String
  amount : ℚ
  currency : String
  reason : String
  status : String
  notes : Option String
  isLiveMode : Bool
  createdAt : Nat
  updatedAt : Nat
deriving DecidableEq, Repr

/-- Webhook event row (shared schema, table `webhook_events`). -/
structure WebhookEvent where
  id : Nat
  eventId : String
  eventType : String
  data : String
  processed : Bool
  isLiveMode : Bool
  createdAt : Nat
deriving DecidableEq, Repr

/-- Insert payload for `createPayment` (`InsertPayment` in the schema). -/
structure InsertPayment where
  paymentIntentId : String
  amount : ℚ
  currency : String
  status : String
  description : Option String
  customerEmail : Option String
  cardLast4 : Option String
  paymentMethodType : Option String
  stripeFee : Option Int
  isLiveMode : Bool
deriving DecidableEq, Repr

/-- Insert payload for `createRefund` (`InsertRefund` in the schema). -/
structure InsertRefund where
  refundId : String
  paymentId : Nat
  paymentIntentId : String
  amount : ℚ
  currency : String
  reason : String
  status : String
  notes : Option String
  isLiveMode : Bool
deriving DecidableEq, Repr

/-- Insert payload for `createWebhookEvent`. -/
structure InsertWebhookEvent where
  eventId : String
  eventType : String
  data : String
  processed : Bool
  isLiveMode : Bool
deriving DecidableEq, Repr

section MapModel

variable {α : Type} {κ : Type} [DecidableEq κ]

/-- JavaScript `Map.set` on an insertion-ordered entry list: replace the
entry with the given key in place, or append a fresh entry at the end. -/
def mapSet (key : α → κ) (k : κ) (v : α) : List α → List α
  | [] => [v]
  | x :: xs => if key x = k then v :: xs else x :: mapSet key k v xs

/-- JavaScript `Map.get`: the first entry with the given key. -/
def mapGet (key : α → κ) (k : κ) (l : List α) : Option α :=
  l.find? (fun x => key x = k)

/-- JavaScript `Map.delete`: remove the entry with the given key. -/
def mapDelete (key : α → κ) (k : κ) (l : List α) : List α :=
  l.eraseP (fun x => key x = k)

end MapModel

/-- In-memory store (`class MemStorage`), maps modelled as insertion-ordered
lists. -/
structure MemStorage where
  payments : List Payment
  refunds : List Refund
  webhookEvents : List WebhookEvent
  currentPaymentId : Nat
  currentRefundId : Nat
deriving DecidableEq, Repr

/-- The freshly constructed store. -/
def MemStorage.empty : MemStorage :=
  { payments := [], refunds := [], webhookEvents := []
    currentPaymentId := 1, currentRefundId := 1 }

/-- MemStorage.createPayment. -/
def MemStorage.createPayment (s : MemStorage) (ins : InsertPayment) (now : Nat) :
    Payment × MemStorage :=
  let id := s.currentPaymentId
  let p : Payment :=
    { id := id
      paymentIntentId := ins.paymentIntentId
      amount := ins.amount
      currency := ins.currency
      status := ins.status
      customerEmail := ins.customerEmail
      description := ins.description
      cardLast4 := ins.cardLast4
      paymentMethodType := ins.paymentMethodType
      isLiveMode := ins.isLiveMode
      stripeFee := ins.stripeFee
      createdAt := now
      updatedAt := now }
  (p, { s with payments := mapSet Payment.id id p s.payments
               currentPaymentId := id + 1 })

/-- MemStorage.getPayment. -/
def MemStorage.getPayment (s : MemStorage) (id : Nat) : Option Payment :=
  mapGet Payment.id id s.payments

/-- MemStorage.getPaymentByIntentId: linear scan over the map values. -/
def MemStorage.getPaymentByIntentId (s : MemStorage) (pid : String) : Option Payment :=
  s.payments.find? (fun p => p.paymentIntentId = pid)

/-- The `Partial<Payment>` objects actually passed to `updatePayment` in the
repository carry at most the keys status, cardLast4, paymentMethodType and
stripeFee.  A key that is absent from the object is `none` here; a key that is
present carries the (possibly null) value. -/
structure PaymentUpdates where
  status : Option String
  cardLast4 : Option (Option String)
  paymentMethodType : Option (Option String)
  stripeFee : Option (Option Int)
deriving DecidableEq, Repr

/-- Object spread `{ ...payment, ...updates, updatedAt: new Date() }`. -/
def applyPaymentUpdates (p : Payment) (u : PaymentUpdates) (now : Nat) : Payment :=
  { p with
    status := u.status.getD p.status
    cardLast4 := u.cardLast4.getD p.cardLast4
    paymentMethodType := u.paymentMethodType.getD p.paymentMethodType
    stripeFee := u.stripeFee.getD p.stripeFee
    updatedAt := now }

/-- MemStorage.updatePayment. -/
def MemStorage.updatePayment (s : MemStorage) (id : Nat) (u : PaymentUpdates)
    (now : Nat) : Option Payment × MemStorage :=
  match s.getPayment id with
  | none => (none, s)
  | some p =>
    let p' := applyPaymentUpdates p u now
    (some p', { s with payments := mapSet Payment.id id p' s.payments })

/-- MemStorage.deletePayment. -/
def MemStorage.deletePayment (s : MemStorage) (id : Nat) : MemStorage :=
  { s with payments := mapDelete Payment.id id s.payments }

/-- MemStorage.createRefund. -/
def MemStorage.createRefund (s : MemStorage) (ins : InsertRefund) (now : Nat) :
    Refund × MemStorage :=
  let id := s.currentRefundId
  let r : Refund :=
    { id := id
      refundId := ins.refundId
      paymentId := ins.paymentId
      paymentIntentId := ins.paymentIntentId
      amount := ins.amount
      currency := ins.currency
      reason := ins.reason
      status := ins.status
      notes := ins.notes
      isLiveMode := ins.isLiveMode
      createdAt := now
      updatedAt := now }
  (r, { s with refunds := mapSet Refund.id id r s.refunds
               currentRefundId := id + 1 })

/-- MemStorage.getRefundsByPaymentId. -/
def MemStorage.getRefundsByPaymentId (s : MemStorage) (paymentId : Nat) : List Refund :=
  s.refunds.filter (fun r => r.paymentId = paymentId)

/-- MemStorage.getRefundsByPaymentIntentId. -/
def MemStorage.getRefundsByPaymentIntentId (s : MemStorage) (pid : String) : List Refund :=
  s.refunds.filter (fun r => r.paymentIntentId = pid)

/-- MemStorage.createWebhookEvent.  The local id is `webhookEvents.size + 1`,
computed before the `Map.set`; the map is keyed by the external event id, so a
second insert with the same event id overwrites the stored record. -/
def MemStorage.createWebhookEvent (s : MemStorage) (ins : InsertWebhookEvent)
    (now : Nat) : WebhookEvent × MemStorage :=
  let ev : WebhookEvent :=
    { id := s.webhookEvents.length + 1
      eventId := ins.eventId
      eventType := ins.eventType
      data := ins.data
      processed := ins.processed
      isLiveMode := ins.isLiveMode
      createdAt := now }
  (ev, { s with webhookEvents := mapSet WebhookEvent.eventId ins.eventId ev s.webhookEvents })

/-- MemStorage.getWebhookEvent. -/
def MemStorage.getWebhookEvent (s : MemStorage) (eventId : String) : Option WebhookEvent :=
  mapGet WebhookEvent.eventId eventId s.webhookEvents

/-- MemStorage.markWebhookEventProcessed. -/
def MemStorage.markWebhookEventProcessed (s : MemStorage) (eventId : String) : MemStorage :=
  match s.getWebhookEvent eventId with
  | none => s
  | some ev =>
    { s with webhookEvents :=
        mapSet WebhookEvent.eventId eventId { ev with processed := true } s.webhookEvents }

section StableSort

variable {α : Type}

/-- One step of the stable sort: insert `x` before the first element whose key
is not strictly greater.  Equal keys keep `x` (the element that came earlier
in the input) first, exactly as a stable descending sort does. -/
def sortInsert (key : α → Nat) (x : α) : List α → List α
  | [] => [x]
  | y :: ys => if key x < key y then y :: sortInsert key x ys else x :: y :: ys

/-- Stable sort, descending by `key`: the model of
`array.sort((a, b) => b.createdAt - a.createdAt)`. -/
def sortByKeyDesc (key : α → Nat) : List α → List α
  | [] => []
  | x :: xs => sortInsert key x (sortByKeyDesc key xs)

end StableSort

/-- MemStorage.listPayments: sort newest first by createdAt (stable), then
`slice(offset, offset + limit)`. -/
def MemStorage.listPayments (s : MemStorage) (limit offset : Nat) :
    List Payment :=
  ((sortByKeyDesc Payment.createdAt s.payments).drop offset).take limit

/-- MemStorage.listRefunds: same shape as listPayments. -/
def MemStorage.listRefunds (s : MemStorage) (limit offset : Nat) :
    List Refund :=
  ((sortByKeyDesc Refund.createdAt s.refunds).drop offset).take limit

/-- Server-side module state of `routes.ts`: the current mode string
(`currentMode`), the secret key wired into the current Stripe client
(`currentStripe`), and the storage singleton. -/
structure ServerState where
  mode : String
  activeKey : String
  storage : MemStorage
deriving DecidableEq, Repr

/-- HTTP responses, reduced to the shapes the handlers distinguish. -/
inductive Resp where
  | created (clientSecret : String) (paymentId : Nat)
  | jsonOk
  | err (status : Nat) (msg : String)
deriving DecidableEq, Repr

/-- switchStripeMode: sets `currentMode` and rebuilds the Stripe client with
the matching secret key. -/
def switchStripeMode (testKey liveKey : String) (mode : String) (s : ServerState) :
    ServerState :=
  { s with mode := mode
           activeKey := if mode = "live" then liveKey else testKey }

/-- POST /api/switch-mode: reject anything but the two mode names, then
switch. -/
def switchModeHandler (testKey liveKey : String) (s : ServerState) (mode : String) :
    Resp × ServerState :=
  if mode ≠ "test" ∧ mode ≠ "live" then
    (.err 400 "Mode must be test or live", s)
  else
    (.jsonOk, switchStripeMode testKey liveKey mode s)

/-- Modelled from the spec: the payment provider (an external collaborator,
spec sections 4.2 and 6) keeps its own authoritative ledger of payment
intents in integer minor units and enforces amount validation itself. -/
structure ProviderPaymentIntent where
  id : String
  amount : Int
  currency : String
  status : String
  refunded : Int
deriving DecidableEq, Repr

/-- Modelled from the spec: provider-side state, the list of payment intents
created under the active credential set. -/
structure ProviderState where
  intents : List ProviderPaymentIntent
deriving DecidableEq, Repr

/-- Modelled from the spec: `stripe.paymentIntents.create` returns a fresh
intent (initial status requires_payment_method) and a client secret. -/
def providerCreatePaymentIntent (ps : ProviderState) (amountMinor : Int)
    (currency : String) : ProviderPaymentIntent × String × ProviderState :=
  let pid := "pi_" ++ toString ps.intents.length
  let intent : ProviderPaymentIntent :=
    { id := pid, amount := amountMinor, currency := currency
      status := "requires_payment_method", refunded := 0 }
  (intent, pid ++ "_secret", { intents := ps.intents ++ [intent] })

/-- Result of a successful `stripe.refunds.create` call. -/
structure ProviderRefundResult where
  id : String
  amount : Int
  currency : String
  status : Option String
deriving DecidableEq, Repr

/-- Modelled from the spec: `stripe.refunds.create` refunds the requested
minor-unit amount (or the full remaining balance when no amount is given) and
rejects a refund that exceeds the remaining refundable balance of the intent;
this check is authoritative at the provider. -/
def providerCreateRefund (ps : ProviderState) (pid : String)
    (amountMinor : Option Int) :
    Except String (ProviderRefundResult × ProviderState) :=
  match ps.intents.find? (fun pi => pi.id = pid) with
  | none => .error "no_such_payment_intent"
  | some pi =>
    let remaining := pi.amount - pi.refunded
    let a := amountMinor.getD remaining
    if a ≤ 0 ∨ remaining < a then .error "refund_exceeds_balance"
    else
      .ok ({ id := "re_" ++ pid ++ "_" ++ toString pi.refunded.toNat
             amount := a, currency := pi.currency, status := some "succeeded" },
           { intents := mapSet ProviderPaymentIntent.id pid
               { pi with refunded := pi.refunded + a } ps.intents })

/-- Whole-system state: the server plus the provider it talks to. -/
structure World where
  server : ServerState
  provider : ProviderState
deriving DecidableEq, Repr

/-- Trace entries for the create-payment-intent handler, one per provider or
storage call in the source. -/
inductive PayOp where
  | providerCreate (amountMinor : Int) (currency : String)
  | storePayment (id : Nat)
deriving DecidableEq, Repr

/-- POST /api/create-payment-intent: validate the minimum (0.50, in pounds),
send `Math.round(amount * 100)` pence to the provider, store the raw request
`amount` locally with the provider-reported status and the active mode. -/
def createPaymentIntentHandler (w : World) (amount : ℚ) (currency : String)
    (description customerEmail : Option String) (now : Nat) :
    Resp × List PayOp × World :=
  if amount < 1/2 then
    (.err 400 "Amount must be at least 0.50", [], w)
  else
    let minor := jsRound (amount * 100)
    let (pi, secret, prov) := providerCreatePaymentIntent w.provider minor currency
    let ins : InsertPayment :=
      { paymentIntentId := pi.id
        amount := amount
        currency := currency
        status := pi.status
        description := description
        customerEmail := customerEmail
        cardLast4 := none
        paymentMethodType := none
        stripeFee := none
        isLiveMode := w.server.mode = "live" }
    let (payment, stor) := w.server.storage.createPayment ins now
    (.created secret payment.id,
     [.providerCreate minor currency, .storePayment payment.id],
     { server := { w.server with storage := stor }, provider := prov })

/-- Card details inside a charge of a provider snapshot. -/
structure ChargeCard where
  last4 : String
  brand : String
deriving DecidableEq, Repr

/-- One charge of a provider payment-intent snapshot.  `balanceTxFee` is
`some fee` when `charge.balance_transaction` is present, with `fee` the value
`stripe.balanceTransactions.retrieve(...).fee` returns for it. -/
structure ProviderCharge where
  card : Option ChargeCard
  balanceTxFee : Option Int
deriving DecidableEq, Repr

/-- Snapshot returned by `stripe.paymentIntents.retrieve`. -/
structure ProviderPaymentSnapshot where
  id : String
  status : String
  amount : Int
  charges : List ProviderCharge
deriving DecidableEq, Repr

/-- The card/fee fields the update-payment-status handler derives from the
snapshot: populated only when the snapshot status is succeeded and a charge is
present, null otherwise. -/
def reconcileDerived (snap : ProviderPaymentSnapshot) :
    Option String × Option String × Option Int :=
  if snap.status = "succeeded" then
    match snap.charges.head? with
    | some c => (c.card.map ChargeCard.last4, c.card.map ChargeCard.brand,
                 c.balanceTxFee)
    | none => (none, none, none)
  else (none, none, none)

/-- The update object the update-payment-status handler passes to
`updatePayment`: always all four keys. -/
def reconcileUpdates (snap : ProviderPaymentSnapshot) : PaymentUpdates :=
  { status := some snap.status
    cardLast4 := some (reconcileDerived snap).1
    paymentMethodType := some (reconcileDerived snap).2.1
    stripeFee := some (reconcileDerived snap).2.2 }

/-- POST /api/update-payment-status: fetch the provider snapshot, look the
payment up locally, derive card/fee fields only when the snapshot status is
succeeded and a charge is present, then update status plus the three derived
fields in one `updatePayment` call. -/
def updatePaymentStatusHandler (s : ServerState) (paymentIntentId : String)
    (snap : ProviderPaymentSnapshot) (now : Nat) : Resp × ServerState :=
  if paymentIntentId = "" then
    (.err 400 "Payment Intent ID is required", s)
  else
    match s.storage.getPaymentByIntentId paymentIntentId with
    | none => (.err 404 "Payment not found", s)
    | some payment =>
      let stor := (s.storage.updatePayment payment.id (reconcileUpdates snap) now).2
      (.jsonOk, { s with storage := stor })

/-- Trace entries for the create-refund handler. -/
inductive RefundOp where
  | providerRefund (paymentIntentId : String) (amountMinor : Option Int)
  | storeRefund (refundId : String)
deriving DecidableEq, Repr

/-- POST /api/create-refund: local lookup and succeeded-status check, then the
provider call (the only balance check), then store the provider-approved
amount divided by 100. -/
def createRefundHandler (w : World) (paymentIntentId : String) (amount : Option ℚ)
    (reason : String) (notes : Option String) (now : Nat) :
    Resp × List RefundOp × World :=
  if paymentIntentId = "" then
    (.err 400 "Payment Intent ID is required", [], w)
  else
    match w.server.storage.getPaymentByIntentId paymentIntentId with
    | none => (.err 404 "Payment not found", [], w)
    | some payment =>
      if payment.status ≠ "succeeded" then
        (.err 400 "Can only refund succeeded payments", [], w)
      else
        let amountMinor := match amount with
          | some a => if a = 0 then none else some (jsRound (a * 100))
          | none => none
        match providerCreateRefund w.provider paymentIntentId amountMinor with
        | .error _ =>
          (.err 500 "Error creating refund",
           [.providerRefund paymentIntentId amountMinor], w)
        | .ok (r, prov) =>
          let ins : InsertRefund :=
            { refundId := r.id
              paymentId := payment.id
              paymentIntentId := paymentIntentId
              amount := (r.amount : ℚ) / 100
              currency := r.currency
              reason := reason
              status := r.status.getD "processing"
              notes := notes
              isLiveMode := w.server.mode = "live" }
          let (stored, stor) := w.server.storage.createRefund ins now
          (.jsonOk,
           [.providerRefund paymentIntentId amountMinor, .storeRefund stored.refundId],
           { server := { w.server with storage := stor }, provider := prov })

/-- Trace entries for the webhook handler. -/
inductive WebhookOp where
  | createEvent (eventId : String)
  | updatePayment (paymentId : Nat) (status : String)
  | markProcessed (eventId : String)
deriving DecidableEq, Repr

/-- A verified Stripe event as `webhooks.constructEvent` yields it: id, type,
the serialized `event.data` and the id of `event.data.object`. -/
structure StripeEvent where
  id : String
  type : String
  dataJson : String
  dataObjectId : String
deriving DecidableEq, Repr

/-- The status the webhook switch writes for an event type: succeeded and
payment_failed events update the payment, refund.created, refund.updated and
unhandled types take no action. -/
def webhookTargetStatus (t : String) : Option String :=
  if t = "payment_intent.succeeded" then some "succeeded"
  else if t = "payment_intent.payment_failed" then some "failed"
  else none

/-- The row the webhook handler stores for a verified event. -/
def webhookEventInsert (mode : String) (ev : StripeEvent) : InsertWebhookEvent :=
  { eventId := ev.id, eventType := ev.type, data := ev.dataJson
    processed := false, isLiveMode := mode = "live" }

/-- The update object the webhook switch passes to updatePayment: only the
status key. -/
def webhookStatusUpdate (newStatus : String) : PaymentUpdates :=
  { status := some newStatus, cardLast4 := none
    paymentMethodType := none, stripeFee := none }

/-- The switch statement of the webhook handler: look the payment up by the
id of the event object and write the status the event type dictates; skip
silently when the payment is unknown or the type is unhandled. -/
def webhookDispatch (st : MemStorage) (ev : StripeEvent) (now : Nat) :
    List WebhookOp × MemStorage :=
  match webhookTargetStatus ev.type with
  | none => ([], st)
  | some newStatus =>
    match st.getPaymentByIntentId ev.dataObjectId with
    | none => ([], st)
    | some payment =>
      ([.updatePayment payment.id newStatus],
       (st.updatePayment payment.id (webhookStatusUpdate newStatus) now).2)

/-- POST /webhook: after signature verification the event is stored
unconditionally (no duplicate check), the type-dispatch side effect runs, and
the event is marked processed. -/
def webhookHandler (s : ServerState) (secretConfigured sigValid : Bool)
    (ev : StripeEvent) (now : Nat) : Resp × List WebhookOp × ServerState :=
  if ¬secretConfigured then
    (.err 400 "Webhook endpoint not configured", [], s)
  else if ¬sigValid then
    (.err 400 "Webhook signature verification failed", [], s)
  else
    let st1 := (s.storage.createWebhookEvent (webhookEventInsert s.mode ev) now).2
    let step := webhookDispatch st1 ev now
    let st3 := step.2.markWebhookEventProcessed ev.id
    (.jsonOk, .createEvent ev.id :: step.1 ++ [.markProcessed ev.id],
     { s with storage := st3 })

/-- Snapshot from `stripe.paymentIntents.list` used by the sync handler (card
fields already extracted from the expanded first charge). -/
structure ProviderPISnap where
  id : String
  amount : Int
  currency : String
  status : String
  description : Option String
  receiptEmail : Option String
  cardLast4 : Option String
  paymentMethodType : Option String
deriving DecidableEq, Repr

/-- Snapshot from `stripe.refunds.list` used by the sync handler. -/
structure ProviderRefundSnap where
  id : String
  paymentIntentId : String
  amount : Int
  currency : String
  status : Option String
  reason : Option String
  metadataNotes : Option String
deriving DecidableEq, Repr

/-- The payment row the sync loop builds from a provider snapshot. -/
def syncPaymentData (mode : String) (pi : ProviderPISnap) : InsertPayment :=
  { paymentIntentId := pi.id
    amount := (pi.amount : ℚ) / 100
    currency := pi.currency
    status := pi.status
    description := pi.description
    customerEmail := pi.receiptEmail
    cardLast4 := pi.cardLast4
    paymentMethodType := pi.paymentMethodType
    stripeFee := none
    isLiveMode := mode = "live" }

/-- First loop of POST /api/sync-stripe-history: create a payment for every
snapshot whose intent id is not stored yet. -/
def syncPaymentsLoop (mode : String) (now : Nat) :
    List ProviderPISnap → MemStorage → Nat × MemStorage
  | [], st => (0, st)
  | pi :: rest, st =>
    match st.getPaymentByIntentId pi.id with
    | some _ => syncPaymentsLoop mode now rest st
    | none =>
      let st1 := (st.createPayment (syncPaymentData mode pi) now).2
      let res := syncPaymentsLoop mode now rest st1
      (res.1 + 1, res.2)

/-- The skip test of the refund sync loop: some stored refund with the same
payment intent id already carries this external refund id. -/
def refundAlreadyExists (st : MemStorage) (r : ProviderRefundSnap) : Bool :=
  (st.getRefundsByPaymentIntentId r.paymentIntentId).any
    (fun er => er.refundId == r.id)

/-- The refund row the sync loop builds from a provider snapshot. -/
def syncRefundData (mode : String) (paymentId : Nat) (r : ProviderRefundSnap) :
    InsertRefund :=
  { refundId := r.id
    paymentId := paymentId
    paymentIntentId := r.paymentIntentId
    amount := (r.amount : ℚ) / 100
    currency := r.currency
    reason := r.reason.getD "requested_by_customer"
    status := r.status.getD "pending"
    notes := r.metadataNotes
    isLiveMode := mode = "live" }

/-- Second loop of POST /api/sync-stripe-history: create a refund for every
snapshot that is not stored yet and whose parent payment is found locally. -/
def syncRefundsLoop (mode : String) (now : Nat) :
    List ProviderRefundSnap → MemStorage → Nat × MemStorage
  | [], st => (0, st)
  | r :: rest, st =>
    if refundAlreadyExists st r then syncRefundsLoop mode now rest st
    else
      match st.getPaymentByIntentId r.paymentIntentId with
      | none => syncRefundsLoop mode now rest st
      | some payment =>
        let st1 := (st.createRefund (syncRefundData mode payment.id r) now).2
        let res := syncRefundsLoop mode now rest st1
        (res.1 + 1, res.2)

/-- POST /api/sync-stripe-history: payments first, then refunds; returns the
pair of created-record counts. -/
def syncHandler (mode : String) (pis : List ProviderPISnap)
    (rs : List ProviderRefundSnap) (st : MemStorage) (now : Nat) :
    (Nat × Nat) × MemStorage :=
  let p := syncPaymentsLoop mode now pis st
  let r := syncRefundsLoop mode now rs p.2
  ((p.1, r.1), r.2)

/-- DELETE /api/clear-test-payments: take the default page of
`listPayments()` (limit 50, offset 0), keep those with status
requires_payment_method, delete each by id; returns the count. -/
def clearTestPayments (st : MemStorage) : Nat × MemStorage :=
  let page := st.listPayments 50 0
  let targets := page.filter (fun p => p.status == "requires_payment_method")
  (targets.length, targets.foldl (fun acc p => acc.deletePayment p.id) st)

/-! Concrete fixtures used by witnesses and counterexamples. -/

/-- A fresh server in test mode, as the module initializes it. -/
def testServer : ServerState :=
  { mode := "test", activeKey := "sk_test_key", storage := MemStorage.empty }

/-- A fresh world: fresh server, provider with no payment intents. -/
def testWorld : World :=
  { server := testServer, provider := { intents := [] } }

/-- A stored payment that is still processing. -/
def procPayment : Payment :=
  { id := 1, paymentIntentId := "pi_0", amount := 2, currency := "gbp"
    status := "processing", customerEmail := none, description := none
    cardLast4 := none, paymentMethodType := none, isLiveMode := false
    stripeFee := none, createdAt := 0, updatedAt := 0 }

/-- A stored payment that has succeeded. -/
def succPayment : Payment :=
  { procPayment with id := 2, paymentIntentId := "pi_1", status := "succeeded" }

/-- World with one processing and one succeeded payment, mirrored at the
provider (both 200 minor units, nothing refunded). -/
def twoPaymentWorld : World :=
  { server :=
      { testServer with storage :=
          { MemStorage.empty with payments := [procPayment, succPayment]
                                  currentPaymentId := 3 } }
    provider :=
      { intents :=
          [ { id := "pi_0", amount := 200, currency := "gbp"
              status := "processing", refunded := 0 }
          , { id := "pi_1", amount := 200, currency := "gbp"
              status := "succeeded", refunded := 0 } ] } }

/-- A payment-succeeded event for the processing payment pi_0. -/
def cxEvent : StripeEvent :=
  { id := "evt_1", type := "payment_intent.succeeded"
    dataJson := "payload", dataObjectId := "pi_0" }

/-- Insert payload used by the ordering fixtures. -/
def c8inA : InsertPayment :=
  { paymentIntentId := "pi_a", amount := 1, currency := "gbp"
    status := "succeeded", description := none, customerEmail := none
    cardLast4 := none, paymentMethodType := none, stripeFee := none
    isLiveMode := false }

/-- Same payload under a second intent id. -/
def c8inB : InsertPayment := { c8inA with paymentIntentId := "pi_b" }

/-- Two payments created at the same timestamp (a createdAt tie). -/
def c8st : MemStorage :=
  ((MemStorage.empty.createPayment c8inA 100).2.createPayment c8inB 100).2

/-- The first stored payment of the tie fixture (id 1). -/
def c8p1 : Payment := (MemStorage.empty.createPayment c8inA 100).1

/-- The second stored payment of the tie fixture (id 2). -/
def c8p2 : Payment :=
  ((MemStorage.empty.createPayment c8inA 100).2.createPayment c8inB 100).1

/-- Refund payload for the ordering witness. -/
def c8ref : InsertRefund :=
  { refundId := "re_1", paymentId := 1, paymentIntentId := "pi_a", amount := 1
    currency := "gbp", reason := "requested_by_customer", status := "succeeded"
    notes := none, isLiveMode := false }

/-- Store with two payments and two refunds at distinct timestamps. -/
def c8stW : MemStorage :=
  ((c8st.createRefund c8ref 50).2.createRefund
    { c8ref with refundId := "re_2" } 70).2

/-- Payment payload for the clear-test-payments fixtures: status
requires_payment_method. -/
def c10ins : InsertPayment :=
  { paymentIntentId := "pi_bulk", amount := 1, currency := "gbp"
    status := "requires_payment_method", description := none
    customerEmail := none, cardLast4 := none, paymentMethodType := none
    stripeFee := none, isLiveMode := false }

/-- A store with 51 requires_payment_method payments created at increasing
timestamps: one more than the default listPayments page. -/
def c10st : MemStorage :=
  (List.range 51).foldl
    (fun st i => (st.createPayment c10ins (i + 1)).2) MemStorage.empty

/-- A store with a live-mode requires_payment_method payment and a test-mode
succeeded payment. -/
def c10w : MemStorage :=
  ((MemStorage.empty.createPayment { c10ins with isLiveMode := true } 1).2.createPayment
    { c10ins with status := "succeeded" } 2).2

/-- Sum of the amounts of the stored succeeded refunds of a payment. -/
def sumSucceededRefunds (st : MemStorage) (paymentId : Nat) : ℚ :=
  ((st.getRefundsByPaymentId paymentId).filter
    (fun r => r.status == "succeeded")).foldl (fun acc r => acc + r.amount) 0

/-- World after creating a payment of 0.505 pounds (passes the 0.50 minimum;
the provider receives round(50.5) = 51 pence). -/
def c2w1 : World :=
  (createPaymentIntentHandler testWorld (101/200) "gbp" none none 1).2.2

/-- World after reconciling that payment against the provider truth: status
succeeded, amount 51 minor units, no expanded charge data. -/
def c2w2 : World :=
  { server := (updatePaymentStatusHandler c2w1.server "pi_0"
      (ProviderPaymentSnapshot.mk "pi_0" "succeeded" 51 []) 2).2
    provider := c2w1.provider }

/-- World after a full refund (no amount: the provider refunds the whole
remaining balance, 51 pence, stored as 0.51 pounds). -/
def c2w3 : World :=
  (createRefundHandler c2w2 "pi_0" none "requested_by_customer" none 3).2.2

/-- Store invariant maintained by the auto-increment counter: every stored
payment id is below the next id to assign (so a fresh insert never collides
with an existing Map key). -/
def MemStorage.paymentIdsFresh (st : MemStorage) : Prop :=
  ∀ p ∈ st.payments, p.id < st.currentPaymentId

/-- Refund-side counterpart of `paymentIdsFresh`. -/
def MemStorage.refundIdsFresh (st : MemStorage) : Prop :=
  ∀ r ∈ st.refunds, r.id < st.currentRefundId

/-- A provider payment-intent snapshot for the sync fixtures. -/
def c7pi : ProviderPISnap :=
  { id := "pi_h", amount := 500, currency := "gbp", status := "succeeded"
    description := none, receiptEmail := none, cardLast4 := none
    paymentMethodType := none }

/-- A provider refund snapshot referencing that intent. -/
def c7r : ProviderRefundSnap :=
  { id := "re_h", paymentIntentId := "pi_h", amount := 100, currency := "gbp"
    status := some "succeeded", reason := none, metadataNotes := none }

section MapLemmas

variable {α : Type} {κ : Type} [DecidableEq κ]

/-- Entries of a map after `mapSet` are the new value or old entries. -/
lemma mem_mapSet (key : α → κ) (k : κ) (v : α) :
    ∀ {l : List α} {z : α}, z ∈ mapSet key k v l → z = v ∨ z ∈ l := by
  intro l
  induction l with
  | nil => intro z hz; simpa [mapSet] using hz
  | cons x xs ih =>
    intro z hz
    by_cases h : key x = k
    · simp only [mapSet, if_pos h, List.mem_cons] at hz
      rcases hz with hz | hz
      · exact Or.inl hz
      · exact Or.inr (List.mem_cons_of_mem _ hz)
    · simp only [mapSet, if_neg h, List.mem_cons] at hz
      rcases hz with hz | hz
      · exact Or.inr (hz ▸ List.mem_cons_self _ _)
      · rcases ih hz with hv' | hm
        · exact Or.inl hv'
        · exact Or.inr (List.mem_cons_of_mem _ hm)

/-- Fetching exactly the key just set yields the value just set. -/
lemma mapGet_mapSet_self (key : α → κ) {k : κ} {v : α} (hv : key v = k)
    (l : List α) : mapGet key k (mapSet key k v l) = some v := by
  induction l with
  | nil => simp [mapSet, mapGet, List.find?, hv]
  | cons x xs ih =>
    by_cases h : key x = k
    · simp [mapSet, h, mapGet, List.find?, hv]
    · simpa [mapSet, h, mapGet, List.find?, h] using ih

/-- In a map whose keys are distinct, a member is returned by `mapGet` of its
own key. -/
lemma mapGet_eq_some_of_mem (key : α → κ) {l : List α}
    (hnd : (l.map key).Nodup) {p : α} (hm : p ∈ l) :
    mapGet key (key p) l = some p := by
  induction l with
  | nil => cases hm
  | cons x xs ih =>
    simp only [List.map_cons, List.nodup_cons] at hnd
    rcases List.mem_cons.mp hm with rfl | hm'
    · simp [mapGet, List.find?]
    · have hne : ¬ key x = key p := fun h => hnd.1 (h ▸ List.mem_map_of_mem key hm')
      simpa [mapGet, List.find?, hne] using ih hnd.2 hm'

/-- Setting the key of the entry that a `find?` scan returns makes the scan
return the new value, provided the new value still satisfies the predicate
(keys distinct). -/
lemma find?_mapSet_of_found (key : α → κ) {P : α → Bool} {l : List α} {p v : α}
    (hnd : (l.map key).Nodup) (hfind : l.find? P = some p)
    (hPv : P v = true) (hk : key v = key p) :
    (mapSet key (key p) v l).find? P = some v := by
  induction l with
  | nil => simp [List.find?] at hfind
  | cons x xs ih =>
    simp only [List.map_cons, List.nodup_cons] at hnd
    cases hx : P x with
    | true =>
      have hxp : x = p := by
        rw [List.find?_cons_of_pos (p := P) (a := x) xs hx] at hfind
        exact Option.some.inj hfind
      subst hxp
      simp [mapSet, mapGet, List.find?, hPv]
    | false =>
      have hfind' : xs.find? P = some p := by
        rwa [List.find?_cons_of_neg (p := P) (a := x) xs (by simp [hx])] at hfind
      have hpmem := List.mem_of_find?_eq_some hfind'
      have hne : ¬ key x = key p := fun h => hnd.1 (h ▸ List.mem_map_of_mem key hpmem)
      simpa [mapSet, hne, List.find?, hx] using ih hnd.2 hfind'

/-- `mapSet` keeps the distinct-keys invariant. -/
lemma nodup_keys_mapSet (key : α → κ) {k : κ} {v : α} (hv : key v = k)
    {l : List α} (hnd : (l.map key).Nodup) :
    ((mapSet key k v l).map key).Nodup := by
  induction l with
  | nil => simp [mapSet]
  | cons x xs ih =>
    simp only [List.map_cons, List.nodup_cons] at hnd
    by_cases h : key x = k
    · simp only [mapSet, if_pos h, List.map_cons, List.nodup_cons]
      exact ⟨by rw [hv, ← h]; exact hnd.1, hnd.2⟩
    · simp only [mapSet, if_neg h, List.map_cons, List.nodup_cons]
      refine ⟨fun hc => ?_, ih hnd.2⟩
      rcases List.mem_map.mp hc with ⟨z, hz, hkz⟩
      rcases mem_mapSet key k v hz with rfl | hzl
      · exact h (by rw [← hkz, hv])
      · exact hnd.1 (hkz ▸ List.mem_map_of_mem key hzl)

/-- After `mapSet`, exactly one entry carries the key (keys distinct). -/
lemma filter_mapSet_keys (key : α → κ) {k : κ} {v : α} (hv : key v = k)
    {l : List α} (hnd : (l.map key).Nodup) :
    (mapSet key k v l).filter (fun x => decide (key x = k)) = [v] := by
  induction l with
  | nil => simp [mapSet, hv]
  | cons x xs ih =>
    simp only [List.map_cons, List.nodup_cons] at hnd
    by_cases h : key x = k
    · rw [mapSet, if_pos h, List.filter_cons, if_pos (by simp [hv])]
      rw [List.filter_eq_nil_iff.mpr, List.cons.injEq]
      · exact ⟨rfl, rfl⟩
      · intro a ha
        simp only [decide_eq_true_eq]
        exact fun hc => hnd.1 (h ▸ hc ▸ List.mem_map_of_mem key ha)
    · rw [mapSet, if_neg h, List.filter_cons, if_neg (by simp [h])]
      exact ih hnd.2

/-- Setting a key absent from the map appends the value. -/
lemma mapSet_eq_append (key : α → κ) {k : κ} {v : α} {l : List α}
    (h : ∀ x ∈ l, key x ≠ k) : mapSet key k v l = l ++ [v] := by
  induction l with
  | nil => simp [mapSet]
  | cons x xs ih =>
    have h1 := h x (List.mem_cons_self x xs)
    have h2 : ∀ y ∈ xs, key y ≠ k := fun y hy => h y (List.mem_cons_of_mem x hy)
    rw [mapSet, if_neg h1, ih h2, List.cons_append]

/-- `eraseP` of a unique key equals `filter` of its complement. -/
lemma eraseP_eq_filter_of_nodup (key : α → κ) {k : κ} {l : List α}
    (hnd : (l.map key).Nodup) :
    l.eraseP (fun x => decide (key x = k)) =
      l.filter (fun x => decide (¬ key x = k)) := by
  induction l with
  | nil => rfl
  | cons x xs ih =>
    simp only [List.map_cons, List.nodup_cons] at hnd
    by_cases h : key x = k
    · rw [List.eraseP_cons, show decide (key x = k) = true by simp [h],
        cond_true, List.filter_cons, if_neg (by simp [h])]
      symm
      rw [List.filter_eq_self]
      intro a ha
      simp only [decide_eq_true_eq]
      exact fun hc => hnd.1 (h ▸ hc ▸ List.mem_map_of_mem key ha)
    · rw [List.eraseP_cons, show decide (key x = k) = false by simp [h],
        cond_false, List.filter_cons, if_pos (by simp [h])]
      rw [ih hnd.2]

end MapLemmas

/-- Applying the reconcile update object twice collapses: the second
application changes only updatedAt. -/
lemma applyPaymentUpdates_reconcile_twice (p : Payment)
    (snap : ProviderPaymentSnapshot) (t1 t2 : Nat) :
    applyPaymentUpdates (applyPaymentUpdates p (reconcileUpdates snap) t1)
        (reconcileUpdates snap) t2 =
      { applyPaymentUpdates p (reconcileUpdates snap) t1 with updatedAt := t2 } := by
  simp [applyPaymentUpdates, reconcileUpdates]

/-- updatePayment unfolded at a key that is present. -/
lemma updatePayment_of_getPayment {st : MemStorage} {id : Nat} {p : Payment}
    (h : st.getPayment id = some p) (u : PaymentUpdates) (now : Nat) :
    st.updatePayment id u now =
      (some (applyPaymentUpdates p u now),
       { st with
          payments := mapSet Payment.id id (applyPaymentUpdates p u now) st.payments }) := by
  simp [MemStorage.updatePayment, h]

/-- updatePayment changes only the payments list. -/
lemma updatePayment_frame (st : MemStorage) (id : Nat) (u : PaymentUpdates)
    (now : Nat) :
    (st.updatePayment id u now).2.refunds = st.refunds ∧
    (st.updatePayment id u now).2.webhookEvents = st.webhookEvents ∧
    (st.updatePayment id u now).2.currentPaymentId = st.currentPaymentId ∧
    (st.updatePayment id u now).2.currentRefundId = st.currentRefundId := by
  unfold MemStorage.updatePayment
  cases h : st.getPayment id <;> simp

/-- markWebhookEventProcessed leaves the payments list alone. -/
lemma markProcessed_payments (st : MemStorage) (e : String) :
    (st.markWebhookEventProcessed e).payments = st.payments := by
  unfold MemStorage.markWebhookEventProcessed
  cases h : st.getWebhookEvent e <;> simp

/-- markWebhookEventProcessed unfolded at an event that is present. -/
lemma markProcessed_of_get {st : MemStorage} {e : String} {evr : WebhookEvent}
    (h : st.getWebhookEvent e = some evr) :
    st.markWebhookEventProcessed e =
      { st with webhookEvents := mapSet WebhookEvent.eventId e { evr with processed := true } st.webhookEvents } := by
  simp [MemStorage.markWebhookEventProcessed, h]

/-- The webhook dispatch leaves the events list alone. -/
lemma webhookDispatch_events (st : MemStorage) (ev : StripeEvent) (now : Nat) :
    (webhookDispatch st ev now).2.webhookEvents = st.webhookEvents := by
  unfold webhookDispatch
  rcases webhookTargetStatus ev.type with _ | ns
  · rfl
  · rcases st.getPaymentByIntentId ev.dataObjectId with _ | q
    · rfl
    · exact (updatePayment_frame st q.id _ now).2.1

/-- The operations the webhook dispatch performs depend only on the payments
list of the state it runs over (and not on the clock). -/
lemma webhookDispatch_ops_payments_only {st st' : MemStorage}
    (h : st'.payments = st.payments) (ev : StripeEvent) (now now' : Nat) :
    (webhookDispatch st' ev now').1 = (webhookDispatch st ev now).1 := by
  unfold webhookDispatch
  have hg : st'.getPaymentByIntentId ev.dataObjectId
      = st.getPaymentByIntentId ev.dataObjectId := by
    unfold MemStorage.getPaymentByIntentId
    rw [h]
  rcases webhookTargetStatus ev.type with _ | ns
  · rfl
  · rw [hg]
    rcases st.getPaymentByIntentId ev.dataObjectId with _ | q <;> rfl

/-- Running the webhook dispatch over its own result repeats exactly the same
operations (the update targets the same payment id). -/
lemma webhookDispatch_idem_ops (st : MemStorage) (ev : StripeEvent)
    (now1 now2 : Nat) (hnd : (st.payments.map Payment.id).Nodup) :
    (webhookDispatch (webhookDispatch st ev now1).2 ev now2).1
      = (webhookDispatch st ev now1).1 := by
  unfold webhookDispatch
  rcases webhookTargetStatus ev.type with _ | ns
  · rfl
  · dsimp only
    rcases hl : st.getPaymentByIntentId ev.dataObjectId with _ | q
    · dsimp only
      rw [hl]
    · dsimp only
      have hfind' : List.find? (fun x : Payment => decide (x.paymentIntentId = ev.dataObjectId))
          st.payments = some q := by
        simpa [MemStorage.getPaymentByIntentId] using hl
      have hget : st.getPayment q.id = some q := by
        simpa [MemStorage.getPayment] using
          mapGet_eq_some_of_mem Payment.id hnd (List.mem_of_find?_eq_some hfind')
      rw [updatePayment_of_getPayment hget]
      dsimp only
      have hgid : ({ st with
          payments := mapSet Payment.id q.id
            (applyPaymentUpdates q (webhookStatusUpdate ns) now1) st.payments } : MemStorage).getPaymentByIntentId
          ev.dataObjectId
          = some (applyPaymentUpdates q (webhookStatusUpdate ns) now1) := by
        simp only [MemStorage.getPaymentByIntentId]
        have hPv := List.find?_some hfind'
        exact find?_mapSet_of_found Payment.id hnd hfind' hPv rfl
      rw [hgid]
      dsimp only
      rfl

/-- One webhook ingestion, written out: store the event, dispatch, mark
processed. -/
lemma webhookHandler_shape (s : ServerState) (ev : StripeEvent) (now : Nat) :
    webhookHandler s true true ev now =
      (.jsonOk,
       .createEvent ev.id ::
         (webhookDispatch ((s.storage.createWebhookEvent (webhookEventInsert s.mode ev) now).2) ev now).1
           ++ [.markProcessed ev.id],
       { s with storage := ((webhookDispatch ((s.storage.createWebhookEvent (webhookEventInsert s.mode ev) now).2) ev now).2).markWebhookEventProcessed ev.id }) := rfl

/-- After one ingestion the payments list is the one the dispatch produced. -/
lemma webhookHandler_payments (s : ServerState) (ev : StripeEvent) (now : Nat) :
    (webhookHandler s true true ev now).2.2.storage.payments =
      (webhookDispatch ((s.storage.createWebhookEvent (webhookEventInsert s.mode ev) now).2) ev now).2.payments := by
  rw [webhookHandler_shape]
  exact markProcessed_payments _ _

/-- After one ingestion the event store keys stay distinct and exactly one
stored record carries the ingested external event id. -/
lemma webhookHandler_events_count (s : ServerState) (ev : StripeEvent) (now : Nat)
    (hndE : (s.storage.webhookEvents.map WebhookEvent.eventId).Nodup) :
    ((webhookHandler s true true ev now).2.2.storage.webhookEvents.map WebhookEvent.eventId).Nodup ∧
    ((webhookHandler s true true ev now).2.2.storage.webhookEvents.filter
        (fun e => decide (e.eventId = ev.id))).length = 1 := by
  rw [webhookHandler_shape]
  have hDev : (webhookDispatch ((s.storage.createWebhookEvent (webhookEventInsert s.mode ev) now).2) ev now).2.webhookEvents
      = mapSet WebhookEvent.eventId ev.id
          ((s.storage.createWebhookEvent (webhookEventInsert s.mode ev) now).1)
          s.storage.webhookEvents :=
    webhookDispatch_events _ ev now
  have hget : (webhookDispatch ((s.storage.createWebhookEvent (webhookEventInsert s.mode ev) now).2) ev now).2.getWebhookEvent ev.id
      = some ((s.storage.createWebhookEvent (webhookEventInsert s.mode ev) now).1) := by
    unfold MemStorage.getWebhookEvent
    rw [hDev]
    exact mapGet_mapSet_self WebhookEvent.eventId
      (show ((s.storage.createWebhookEvent (webhookEventInsert s.mode ev) now).1).eventId = ev.id from rfl)
      s.storage.webhookEvents
  rw [markProcessed_of_get hget]
  dsimp only
  rw [hDev]
  have hnd1 : ((mapSet WebhookEvent.eventId ev.id
      ((s.storage.createWebhookEvent (webhookEventInsert s.mode ev) now).1)
      s.storage.webhookEvents).map WebhookEvent.eventId).Nodup :=
    nodup_keys_mapSet WebhookEvent.eventId
      (show ((s.storage.createWebhookEvent (webhookEventInsert s.mode ev) now).1).eventId = ev.id from rfl)
      hndE
  refine ⟨nodup_keys_mapSet WebhookEvent.eventId
    (show ({ (s.storage.createWebhookEvent (webhookEventInsert s.mode ev) now).1 with processed := true } : WebhookEvent).eventId = ev.id from rfl)
    hnd1, ?_⟩
  rw [filter_mapSet_keys WebhookEvent.eventId
    (show ({ (s.storage.createWebhookEvent (webhookEventInsert s.mode ev) now).1 with processed := true } : WebhookEvent).eventId = ev.id from rfl)
    hnd1]
  rfl

/-- C1 (amended): ingesting the same verified event twice stores exactly one
NotificationEvent record for its external event id, because the event store is
keyed by that id and the second insert overwrites the first; but the handler
performs no duplicate check: the second ingestion re-executes exactly the same
storage operations as the first, reapplying the ledger side effect, and both
ingestions return success. -/
theorem webhook_duplicate_ingestion_reapplies (s : ServerState) (ev : StripeEvent)
    (t1 t2 : Nat)
    (hndE : (s.storage.webhookEvents.map WebhookEvent.eventId).Nodup)
    (hndP : (s.storage.payments.map Payment.id).Nodup) :
    (webhookHandler s true true ev t1).1 = .jsonOk ∧
    (webhookHandler (webhookHandler s true true ev t1).2.2 true true ev t2).1 = .jsonOk ∧
    ((webhookHandler (webhookHandler s true true ev t1).2.2 true true ev t2).2.2.storage.webhookEvents.filter
        (fun e => decide (e.eventId = ev.id))).length = 1 ∧
    (webhookHandler (webhookHandler s true true ev t1).2.2 true true ev t2).2.1 =
      (webhookHandler s true true ev t1).2.1 := by
  refine ⟨rfl, rfl, ?_, ?_⟩
  · exact (webhookHandler_events_count _ ev t2
      (webhookHandler_events_count s ev t1 hndE).1).2
  · have hpay : (((webhookHandler s true true ev t1).2.2.storage.createWebhookEvent
        (webhookEventInsert (webhookHandler s true true ev t1).2.2.mode ev) t2).2).payments
        = (webhookDispatch ((s.storage.createWebhookEvent (webhookEventInsert s.mode ev) t1).2) ev t1).2.payments :=
      webhookHandler_payments s ev t1
    show WebhookOp.createEvent ev.id ::
        (webhookDispatch (((webhookHandler s true true ev t1).2.2.storage.createWebhookEvent (webhookEventInsert (webhookHandler s true true ev t1).2.2.mode ev) t2).2) ev t2).1
          ++ [WebhookOp.markProcessed ev.id]
        = WebhookOp.createEvent ev.id ::
        (webhookDispatch ((s.storage.createWebhookEvent (webhookEventInsert s.mode ev) t1).2) ev t1).1
          ++ [WebhookOp.markProcessed ev.id]
    congr 1
    congr 1
    rw [webhookDispatch_ops_payments_only hpay ev t2 t2]
    exact webhookDispatch_idem_ops _ ev t1 t2 hndP

/-- Witness for C1 (amended) over the two-payment world. -/
theorem webhook_duplicate_ingestion_reapplies_witness :
    (webhookHandler twoPaymentWorld.server true true cxEvent 10).1 = .jsonOk ∧
    (webhookHandler (webhookHandler twoPaymentWorld.server true true cxEvent 10).2.2 true true cxEvent 20).1 = .jsonOk ∧
    ((webhookHandler (webhookHandler twoPaymentWorld.server true true cxEvent 10).2.2 true true cxEvent 20).2.2.storage.webhookEvents.filter
        (fun e => decide (e.eventId = cxEvent.id))).length = 1 ∧
    (webhookHandler (webhookHandler twoPaymentWorld.server true true cxEvent 10).2.2 true true cxEvent 20).2.1 =
      (webhookHandler twoPaymentWorld.server true true cxEvent 10).2.1 :=
  webhook_duplicate_ingestion_reapplies twoPaymentWorld.server cxEvent 10 20
    (by decide) (by decide)

/-- C1 (counterexample to the claim as stated): ingesting the same
payment-succeeded event twice makes the second ingestion re-apply the payment
update (its operation trace contains the updatePayment call) and mutate the
state (the stored event record is rebuilt with a fresh local id and timestamp,
the payment is touched again), so the second delivery is neither detected as a
duplicate nor a no-op. -/
theorem webhook_duplicate_counterexample :
    (webhookHandler (webhookHandler twoPaymentWorld.server true true cxEvent 10).2.2 true true cxEvent 20).2.1 =
      [.createEvent "evt_1", .updatePayment 1 "succeeded", .markProcessed "evt_1"] ∧
    (webhookHandler (webhookHandler twoPaymentWorld.server true true cxEvent 10).2.2 true true cxEvent 20).2.2 ≠
      (webhookHandler twoPaymentWorld.server true true cxEvent 10).2.2 := by
  with_unfolding_all decide

/-- C4: reconciling a payment twice against one and the same provider
snapshot leaves the reconciled record byte-identical apart from updatedAt, and
leaves every other part of the storage (other payments, refunds, events,
counters) untouched: the second call replaces the record p1 produced by the
first call with p1 carrying only a new updatedAt. -/
theorem reconcile_unchanged_snapshot_idempotent (s : ServerState) (pid : String)
    (snap : ProviderPaymentSnapshot) (t1 t2 : Nat) (p : Payment)
    (hne : pid ≠ "")
    (hnd : (s.storage.payments.map Payment.id).Nodup)
    (hfind : s.storage.getPaymentByIntentId pid = some p) :
    ∃ p1,
      (updatePaymentStatusHandler s pid snap t1).2.storage.getPaymentByIntentId pid
          = some p1 ∧
      updatePaymentStatusHandler (updatePaymentStatusHandler s pid snap t1).2 pid snap t2 =
        (Resp.jsonOk,
         { (updatePaymentStatusHandler s pid snap t1).2 with
            storage := { (updatePaymentStatusHandler s pid snap t1).2.storage with
              payments := mapSet Payment.id p1.id { p1 with updatedAt := t2 }
                (updatePaymentStatusHandler s pid snap t1).2.storage.payments } }) := by
  have hfind' : List.find? (fun q : Payment => decide (q.paymentIntentId = pid))
      s.storage.payments = some p := by
    simpa [MemStorage.getPaymentByIntentId] using hfind
  have hpfx := List.find?_some hfind'
  have hmem := List.mem_of_find?_eq_some hfind'
  have hget : s.storage.getPayment p.id = some p := by
    simpa [MemStorage.getPayment] using mapGet_eq_some_of_mem Payment.id hnd hmem
  have hfind1 : (mapSet Payment.id p.id (applyPaymentUpdates p (reconcileUpdates snap) t1)
      s.storage.payments).find? (fun q => decide (q.paymentIntentId = pid))
      = some (applyPaymentUpdates p (reconcileUpdates snap) t1) := by
    have hPv : (fun q : Payment => decide (q.paymentIntentId = pid))
        (applyPaymentUpdates p (reconcileUpdates snap) t1) = true := hpfx
    exact find?_mapSet_of_found Payment.id hnd hfind' hPv rfl
  have hget1 : mapGet Payment.id (applyPaymentUpdates p (reconcileUpdates snap) t1).id
      (mapSet Payment.id p.id (applyPaymentUpdates p (reconcileUpdates snap) t1)
        s.storage.payments)
      = some (applyPaymentUpdates p (reconcileUpdates snap) t1) :=
    mapGet_mapSet_self Payment.id rfl s.storage.payments
  have hrun1 : updatePaymentStatusHandler s pid snap t1 =
      (.jsonOk, { s with storage := { s.storage with
        payments := mapSet Payment.id p.id (applyPaymentUpdates p (reconcileUpdates snap) t1) s.storage.payments } }) := by
    unfold updatePaymentStatusHandler
    rw [if_neg hne, hfind]
    simp [updatePayment_of_getPayment hget]
  refine ⟨applyPaymentUpdates p (reconcileUpdates snap) t1, ?_, ?_⟩
  · rw [hrun1]
    simp only [MemStorage.getPaymentByIntentId]
    exact hfind1
  · rw [hrun1]
    unfold updatePaymentStatusHandler
    rw [if_neg hne]
    have hfindS : ({ s with storage := { s.storage with
        payments := mapSet Payment.id p.id (applyPaymentUpdates p (reconcileUpdates snap) t1) s.storage.payments } } : ServerState).storage.getPaymentByIntentId pid
        = some (applyPaymentUpdates p (reconcileUpdates snap) t1) := by
      simp only [MemStorage.getPaymentByIntentId]
      exact hfind1
    rw [hfindS]
    have hgetS : ({ s.storage with
        payments := mapSet Payment.id p.id (applyPaymentUpdates p (reconcileUpdates snap) t1) s.storage.payments } : MemStorage).getPayment
        (applyPaymentUpdates p (reconcileUpdates snap) t1).id
        = some (applyPaymentUpdates p (reconcileUpdates snap) t1) := by
      simp only [MemStorage.getPayment]
      exact hget1
    simp only [updatePayment_of_getPayment hgetS]
    rw [applyPaymentUpdates_reconcile_twice]

/-- Witness for C4: a concrete succeeded snapshot with card and fee data,
reconciled twice over the two-payment world. -/
theorem reconcile_unchanged_snapshot_idempotent_witness :
    ∃ p1,
      (updatePaymentStatusHandler twoPaymentWorld.server "pi_0"
          (ProviderPaymentSnapshot.mk "pi_0" "succeeded" 200
            [ProviderCharge.mk (some (ChargeCard.mk "4242" "visa")) (some 7)]) 10).2.storage.getPaymentByIntentId
          "pi_0" = some p1 ∧
      updatePaymentStatusHandler
          (updatePaymentStatusHandler twoPaymentWorld.server "pi_0"
            (ProviderPaymentSnapshot.mk "pi_0" "succeeded" 200
              [ProviderCharge.mk (some (ChargeCard.mk "4242" "visa")) (some 7)]) 10).2
          "pi_0"
          (ProviderPaymentSnapshot.mk "pi_0" "succeeded" 200
            [ProviderCharge.mk (some (ChargeCard.mk "4242" "visa")) (some 7)]) 20 =
        (Resp.jsonOk,
         { (updatePaymentStatusHandler twoPaymentWorld.server "pi_0"
              (ProviderPaymentSnapshot.mk "pi_0" "succeeded" 200
                [ProviderCharge.mk (some (ChargeCard.mk "4242" "visa")) (some 7)]) 10).2 with
            storage := { (updatePaymentStatusHandler twoPaymentWorld.server "pi_0"
                (ProviderPaymentSnapshot.mk "pi_0" "succeeded" 200
                  [ProviderCharge.mk (some (ChargeCard.mk "4242" "visa")) (some 7)]) 10).2.storage with
              payments := mapSet Payment.id p1.id { p1 with updatedAt := 20 }
                (updatePaymentStatusHandler twoPaymentWorld.server "pi_0"
                    (ProviderPaymentSnapshot.mk "pi_0" "succeeded" 200
                      [ProviderCharge.mk (some (ChargeCard.mk "4242" "visa")) (some 7)]) 10).2.storage.payments } }) :=
  reconcile_unchanged_snapshot_idempotent twoPaymentWorld.server "pi_0"
    (ProviderPaymentSnapshot.mk "pi_0" "succeeded" 200
      [ProviderCharge.mk (some (ChargeCard.mk "4242" "visa")) (some 7)]) 10 20
    procPayment (by decide) (by decide) (by with_unfolding_all decide)

/-- C6: a create-payment request whose amount is below the 0.50 minimum is
rejected locally with the amount-too-small error, no provider call appears in
the trace, and the world (in particular the payment store) is unchanged. -/
theorem createPayment_below_minimum_rejected (w : World) (amount : ℚ)
    (currency : String) (description customerEmail : Option String) (now : Nat)
    (h : amount < 1/2) :
    createPaymentIntentHandler w amount currency description customerEmail now =
      (.err 400 "Amount must be at least 0.50", [], w) := by
  unfold createPaymentIntentHandler
  rw [if_pos h]

/-- Witness for C6 at amount 0.25. -/
theorem createPayment_below_minimum_rejected_witness :
    ((1:ℚ)/4 < 1/2) ∧
    createPaymentIntentHandler testWorld (1/4) "gbp" none none 5 =
      (.err 400 "Amount must be at least 0.50", [], testWorld) :=
  ⟨by with_unfolding_all decide,
   createPayment_below_minimum_rejected testWorld (1/4) "gbp" none none 5
     (by with_unfolding_all decide)⟩

/-- C5: a create-refund request referencing a payment id absent from the local
store fails with the not-found error, and one referencing a stored payment
whose status is not succeeded fails with the refund-rejected error; in both
cases the trace is empty (no provider call) and the world is unchanged (no
RefundRecord). -/
theorem createRefund_guard_errors (w : World) (pid : String) (amount : Option ℚ)
    (reason : String) (notes : Option String) (now : Nat) (hne : pid ≠ "") :
    (w.server.storage.getPaymentByIntentId pid = none →
      createRefundHandler w pid amount reason notes now =
        (.err 404 "Payment not found", [], w)) ∧
    (∀ p, w.server.storage.getPaymentByIntentId pid = some p →
      p.status ≠ "succeeded" →
      createRefundHandler w pid amount reason notes now =
        (.err 400 "Can only refund succeeded payments", [], w)) := by
  constructor
  · intro hnone
    simp [createRefundHandler, hne, hnone]
  · intro p hp hs
    simp [createRefundHandler, hne, hp, hs]

/-- Witness for C5: the processing payment pi_0 is rejected, the unknown
pi_missing is not found. -/
theorem createRefund_guard_errors_witness :
    createRefundHandler twoPaymentWorld "pi_0" none "requested_by_customer" none 7 =
      (.err 400 "Can only refund succeeded payments", [], twoPaymentWorld) ∧
    createRefundHandler twoPaymentWorld "pi_missing" none "requested_by_customer" none 7 =
      (.err 404 "Payment not found", [], twoPaymentWorld) :=
  ⟨(createRefund_guard_errors twoPaymentWorld "pi_0" none "requested_by_customer" none 7
      (by decide)).2 procPayment (by with_unfolding_all decide) (by decide),
   (createRefund_guard_errors twoPaymentWorld "pi_missing" none "requested_by_customer" none 7
      (by decide)).1 (by with_unfolding_all decide)⟩

/-- C9: switchMode rejects every mode name other than test and live leaving
the whole state unchanged; a valid switch never touches the storage (so no
stored record, in particular no isLiveMode flag, changes); and switching to
the mode already active, with its key already wired up, changes nothing at
all. -/
theorem switchMode_spec (testKey liveKey : String) (s : ServerState) (m : String) :
    (m ≠ "test" ∧ m ≠ "live" →
      switchModeHandler testKey liveKey s m = (.err 400 "Mode must be test or live", s)) ∧
    (m = "test" ∨ m = "live" →
      (switchModeHandler testKey liveKey s m).1 = .jsonOk ∧
      (switchModeHandler testKey liveKey s m).2.storage = s.storage) ∧
    ((m = "test" ∨ m = "live") → m = s.mode →
      s.activeKey = (if m = "live" then liveKey else testKey) →
      switchModeHandler testKey liveKey s m = (.jsonOk, s)) := by
  refine ⟨fun h => by unfold switchModeHandler; rw [if_pos h], ?_, ?_⟩
  · rintro (rfl | rfl) <;> simp [switchModeHandler, switchStripeMode]
  · rintro (rfl | rfl) hm hk
    · obtain ⟨mo, ak, st⟩ := s
      dsimp only at hm hk
      rw [if_neg (by decide)] at hk
      subst hm
      subst hk
      with_unfolding_all rfl
    · obtain ⟨mo, ak, st⟩ := s
      dsimp only at hm hk
      rw [if_pos rfl] at hk
      subst hm
      subst hk
      with_unfolding_all rfl

/-- Witness for C9 at a bogus mode, an idempotent test-mode switch and a
test-to-live switch. -/
theorem switchMode_spec_witness :
    switchModeHandler "sk_test_key" "sk_live_key" testServer "bogus" =
      (.err 400 "Mode must be test or live", testServer) ∧
    switchModeHandler "sk_test_key" "sk_live_key" testServer "test" =
      (.jsonOk, testServer) ∧
    (switchModeHandler "sk_test_key" "sk_live_key" testServer "live").2.storage =
      testServer.storage :=
  ⟨(switchMode_spec "sk_test_key" "sk_live_key" testServer "bogus").1 (by decide),
   (switchMode_spec "sk_test_key" "sk_live_key" testServer "test").2.2 (Or.inl rfl)
     (by decide) (by decide),
   ((switchMode_spec "sk_test_key" "sk_live_key" testServer "live").2.1 (Or.inr rfl)).2⟩

/-- C3 (failing input, amount 0.50): the handler sends 50 integer minor units
to the provider but stores 0.5 — the raw pounds value of the request — in the
amount column that the schema documents as integer pence, so the stored
amount is neither the minor-unit value sent to the provider nor an integer;
the isLiveMode flag does match the active mode. -/
theorem createPayment_unit_drift :
    (createPaymentIntentHandler testWorld (1/2) "gbp" none none 4).2.1 =
      [.providerCreate 50 "gbp", .storePayment 1] ∧
    ((createPaymentIntentHandler testWorld (1/2) "gbp" none none 4).2.2.server.storage.getPayment 1).map
      Payment.amount = some (1/2) ∧
    ((1 : ℚ)/2 ≠ (50 : ℚ)) ∧
    (¬ ∃ n : Int, (1 : ℚ)/2 = (n : ℚ)) ∧
    ((createPaymentIntentHandler testWorld (1/2) "gbp" none none 4).2.2.server.storage.getPayment 1).map
      Payment.isLiveMode = some false := by
  refine ⟨by with_unfolding_all decide, by with_unfolding_all decide,
    by with_unfolding_all decide, ?_, by with_unfolding_all decide⟩
  rintro ⟨n, hn⟩
  have h2 : ((1:ℚ)/2).den = 2 := by with_unfolding_all decide
  rw [hn] at h2
  simp [Rat.den_intCast] at h2

section SortLemmas

variable {α : Type}

/-- Elements of `sortInsert` are the inserted element or old elements. -/
lemma mem_sortInsert (key : α → Nat) (x : α) :
    ∀ {l : List α} {z : α}, z ∈ sortInsert key x l → z = x ∨ z ∈ l := by
  intro l
  induction l with
  | nil => intro z hz; simpa [sortInsert] using hz
  | cons y ys ih =>
    intro z hz
    by_cases h : key x < key y
    · simp only [sortInsert, if_pos h, List.mem_cons] at hz
      rcases hz with hz | hz
      · exact Or.inr (by simp [hz])
      · rcases ih hz with h1 | h2
        · exact Or.inl h1
        · exact Or.inr (List.mem_cons_of_mem _ h2)
    · simp only [sortInsert, if_neg h, List.mem_cons] at hz
      rcases hz with hz | hz
      · exact Or.inl hz
      · exact Or.inr (List.mem_cons.mpr hz)

/-- Elements of the sorted list are elements of the input. -/
lemma mem_of_mem_sortByKeyDesc (key : α → Nat) :
    ∀ {l : List α} {z : α}, z ∈ sortByKeyDesc key l → z ∈ l := by
  intro l
  induction l with
  | nil => intro z hz; simp [sortByKeyDesc] at hz
  | cons x xs ih =>
    intro z hz
    rcases mem_sortInsert key x (show z ∈ sortInsert key x (sortByKeyDesc key xs) from hz) with h1 | h2
    · exact h1 ▸ List.mem_cons_self _ _
    · exact List.mem_cons_of_mem _ (ih h2)

/-- Inserting an element whose secondary key is below every secondary key of
an already lexicographically sorted list keeps the list sorted: descending in
the primary key, ascending in the secondary key on primary ties. -/
lemma sortInsert_pairwise (key idf : α → Nat) {l : List α} {x : α}
    (hl : l.Pairwise (fun a b => key b < key a ∨ (key a = key b ∧ idf a < idf b)))
    (hx : ∀ y ∈ l, idf x < idf y) :
    (sortInsert key x l).Pairwise
      (fun a b => key b < key a ∨ (key a = key b ∧ idf a < idf b)) := by
  induction l with
  | nil => simp [sortInsert]
  | cons y ys ih =>
    rcases List.pairwise_cons.mp hl with ⟨hy, hys⟩
    by_cases h : key x < key y
    · simp only [sortInsert, if_pos h]
      refine List.pairwise_cons.mpr
        ⟨?_, ih hys (fun z hz => hx z (List.mem_cons_of_mem _ hz))⟩
      intro z hz
      rcases mem_sortInsert key x hz with rfl | hz'
      · exact Or.inl h
      · exact hy z hz'
    · simp only [sortInsert, if_neg h]
      push_neg at h
      refine List.pairwise_cons.mpr ⟨?_, hl⟩
      intro z hz
      rcases List.mem_cons.mp hz with rfl | hz'
      · rcases lt_or_eq_of_le h with hlt | heq
        · exact Or.inl hlt
        · exact Or.inr ⟨heq.symm, hx z (List.mem_cons_self _ _)⟩
      · rcases hy z hz' with h1 | ⟨h2, _⟩
        · rcases lt_or_eq_of_le h with hlt | heq
          · exact Or.inl (h1.trans hlt)
          · exact Or.inl (heq ▸ h1)
        · rcases lt_or_eq_of_le h with hlt | heq
          · exact Or.inl (by rw [← h2]; exact hlt)
          · exact Or.inr ⟨by rw [← heq, h2], hx z (List.mem_cons_of_mem _ hz')⟩

/-- The stable descending sort of a list whose secondary keys ascend is
sorted lexicographically: descending primary key, ties in ascending secondary
key (that is, in input order). -/
lemma sortByKeyDesc_pairwise (key idf : α → Nat) {l : List α}
    (h : l.Pairwise (fun a b => idf a < idf b)) :
    (sortByKeyDesc key l).Pairwise
      (fun a b => key b < key a ∨ (key a = key b ∧ idf a < idf b)) := by
  induction l with
  | nil => simp [sortByKeyDesc]
  | cons x xs ih =>
    rcases List.pairwise_cons.mp h with ⟨hx, hxs⟩
    exact sortInsert_pairwise key idf (ih hxs)
      (fun y hy => hx y (mem_of_mem_sortByKeyDesc key hy))

end SortLemmas

/-- C8 (amended): for every store whose payments and refunds were inserted
with ascending local ids (as the auto-increment counters guarantee),
listPayments and listRefunds return records newest-first by createdAt with
equal-createdAt ties in ascending local id — the insertion order the stable
sort preserves — for every limit and offset. -/
theorem list_order_newest_first_ascending_ties (st : MemStorage)
    (limit offset : Nat)
    (hp : st.payments.Pairwise (fun a b => a.id < b.id))
    (hr : st.refunds.Pairwise (fun a b => a.id < b.id)) :
    (st.listPayments limit offset).Pairwise
      (fun a b => b.createdAt < a.createdAt ∨
        (a.createdAt = b.createdAt ∧ a.id < b.id)) ∧
    (st.listRefunds limit offset).Pairwise
      (fun a b => b.createdAt < a.createdAt ∨
        (a.createdAt = b.createdAt ∧ a.id < b.id)) := by
  constructor
  · exact List.Pairwise.sublist
      ((List.take_sublist _ _).trans (List.drop_sublist _ _))
      (sortByKeyDesc_pairwise Payment.createdAt Payment.id hp)
  · exact List.Pairwise.sublist
      ((List.take_sublist _ _).trans (List.drop_sublist _ _))
      (sortByKeyDesc_pairwise Refund.createdAt Refund.id hr)

/-- Witness for C8 (amended) over a store with two tied payments and two
refunds. -/
theorem list_order_newest_first_ascending_ties_witness :
    (c8stW.listPayments 50 0).Pairwise
      (fun a b => b.createdAt < a.createdAt ∨
        (a.createdAt = b.createdAt ∧ a.id < b.id)) ∧
    (c8stW.listRefunds 50 0).Pairwise
      (fun a b => b.createdAt < a.createdAt ∨
        (a.createdAt = b.createdAt ∧ a.id < b.id)) :=
  list_order_newest_first_ascending_ties c8stW 50 0
    (by with_unfolding_all decide) (by with_unfolding_all decide)

/-- C8 (counterexample to the claim as stated): two payments created at the
same timestamp are returned in ascending id order [1, 2] — the stable sort
keeps insertion order on ties — not in the descending id order the claim
requires, so the listing is not ordered by (createdAt desc, id desc). -/
theorem listPayments_tie_order_counterexample :
    (c8st.listPayments 50 0).map Payment.id = [1, 2] ∧
    (c8st.listPayments 50 0).map Payment.createdAt = [100, 100] ∧
    ¬ (c8st.listPayments 50 0).Pairwise
        (fun a b => b.createdAt < a.createdAt ∨
          (a.createdAt = b.createdAt ∧ b.id < a.id)) := by
  refine ⟨by with_unfolding_all decide, by with_unfolding_all decide, ?_⟩
  intro h
  have hlist : c8st.listPayments 50 0 = [c8p1, c8p2] := by
    with_unfolding_all rfl
  rw [hlist] at h
  rcases List.pairwise_cons.mp h with ⟨hrel, _⟩
  rcases hrel c8p2 (List.mem_cons_self _ _) with h1 | ⟨_, h2⟩
  · exact absurd h1 (by with_unfolding_all decide)
  · exact absurd h2 (by with_unfolding_all decide)

/-- Folding deletePayment over a list of records touches only the payments
list. -/
lemma foldl_deletePayment_frame (ts : List Payment) :
    ∀ st : MemStorage,
      (ts.foldl (fun acc p => acc.deletePayment p.id) st).refunds = st.refunds ∧
      (ts.foldl (fun acc p => acc.deletePayment p.id) st).webhookEvents = st.webhookEvents ∧
      (ts.foldl (fun acc p => acc.deletePayment p.id) st).currentPaymentId = st.currentPaymentId ∧
      (ts.foldl (fun acc p => acc.deletePayment p.id) st).currentRefundId = st.currentRefundId := by
  induction ts with
  | nil => intro st; exact ⟨rfl, rfl, rfl, rfl⟩
  | cons t ts ih =>
    intro st
    simpa [List.foldl_cons] using ih (st.deletePayment t.id)

/-- Folding deletePayment over a list of records removes exactly the records
whose id occurs in the list (unique ids). -/
lemma foldl_deletePayment_payments (ts : List Payment) :
    ∀ st : MemStorage, (st.payments.map Payment.id).Nodup →
      (ts.foldl (fun acc p => acc.deletePayment p.id) st).payments =
        st.payments.filter (fun p => decide (∀ t ∈ ts, ¬ p.id = t.id)) := by
  induction ts with
  | nil =>
    intro st _
    simp only [List.foldl_nil]
    symm
    rw [List.filter_eq_self]
    intro a _
    simp
  | cons t ts ih =>
    intro st hnd
    have hdel : (st.deletePayment t.id).payments =
        st.payments.filter (fun p => decide (¬ p.id = t.id)) := by
      unfold MemStorage.deletePayment mapDelete
      exact eraseP_eq_filter_of_nodup Payment.id hnd
    have hnd' : ((st.deletePayment t.id).payments.map Payment.id).Nodup := by
      rw [hdel]
      exact hnd.sublist (List.Sublist.map Payment.id (List.filter_sublist _))
    rw [List.foldl_cons, ih (st.deletePayment t.id) hnd', hdel,
      List.filter_filter]
    refine List.filter_congr ?_
    intro a _
    simp [List.forall_mem_cons, Bool.and_comm]

/-- C10 (amended): the clear-test-payments operation deletes exactly the
requires_payment_method payments of the default listPayments page (the 50
newest by createdAt) — payments beyond that page survive even with that
status — and it applies no isLiveMode filter, so live-mode payments in the
page are deleted alongside test-mode ones; refunds and events are untouched
and the reported count is the number of page records with that status. -/
theorem clearTestPayments_deletes_page (st : MemStorage)
    (hnd : (st.payments.map Payment.id).Nodup) :
    (clearTestPayments st).2.payments =
      st.payments.filter (fun p => decide (∀ t ∈ (st.listPayments 50 0).filter
        (fun q : Payment => q.status == "requires_payment_method"), ¬ p.id = t.id)) ∧
    (∀ p ∈ (st.listPayments 50 0).filter
        (fun q : Payment => q.status == "requires_payment_method"),
      ∀ q ∈ (clearTestPayments st).2.payments, q.id ≠ p.id) ∧
    (clearTestPayments st).2.refunds = st.refunds ∧
    (clearTestPayments st).2.webhookEvents = st.webhookEvents ∧
    (clearTestPayments st).1 = ((st.listPayments 50 0).filter
        (fun q : Payment => q.status == "requires_payment_method")).length := by
  have hmain := foldl_deletePayment_payments
    ((st.listPayments 50 0).filter (fun q : Payment => q.status == "requires_payment_method"))
    st hnd
  have hframe := foldl_deletePayment_frame
    ((st.listPayments 50 0).filter (fun q : Payment => q.status == "requires_payment_method")) st
  refine ⟨hmain, ?_, hframe.1, hframe.2.1, rfl⟩
  intro p hp q hq
  have hq' : q ∈ st.payments.filter (fun r => decide (∀ t ∈ (st.listPayments 50 0).filter
      (fun x : Payment => x.status == "requires_payment_method"), ¬ r.id = t.id)) := by
    rw [← hmain]
    exact hq
  have := List.of_mem_filter hq'
  simp only [decide_eq_true_eq] at this
  exact this p hp

/-- Witness for C10 (amended): the live-mode requires_payment_method payment
is deleted, the succeeded one survives. -/
theorem clearTestPayments_deletes_page_witness :
    (clearTestPayments c10w).2.payments =
      c10w.payments.filter (fun p => decide (∀ t ∈ (c10w.listPayments 50 0).filter
        (fun q : Payment => q.status == "requires_payment_method"), ¬ p.id = t.id)) ∧
    (∀ p ∈ (c10w.listPayments 50 0).filter
        (fun q : Payment => q.status == "requires_payment_method"),
      ∀ q ∈ (clearTestPayments c10w).2.payments, q.id ≠ p.id) ∧
    (clearTestPayments c10w).2.refunds = c10w.refunds ∧
    (clearTestPayments c10w).2.webhookEvents = c10w.webhookEvents ∧
    (clearTestPayments c10w).1 = ((c10w.listPayments 50 0).filter
        (fun q : Payment => q.status == "requires_payment_method")).length :=
  clearTestPayments_deletes_page c10w (by with_unfolding_all decide)

/-- C10 (counterexample to the claim as stated): with 51 stored
requires_payment_method payments, the handler deletes only the 50 returned by
the default listPayments page; the oldest requires_payment_method payment
(id 1) survives, so the operation does not delete every stored record with
that status. -/
theorem clearTestPayments_misses_old_counterexample :
    c10st.payments.length = 51 ∧
    c10st.payments.all (fun p => p.status == "requires_payment_method") = true ∧
    (clearTestPayments c10st).1 = 50 ∧
    (clearTestPayments c10st).2.payments.map (fun p => (p.id, p.status)) =
      [(1, "requires_payment_method")] := by
  with_unfolding_all decide

/-- C2 (amended): the create-refund handler has no local balance check; a
request whose minor-unit amount exceeds the remaining refundable balance the
provider holds for the intent is rejected by the provider, surfaced as a 500
provider error after the provider call, and creates no RefundRecord (the
whole world is unchanged). -/
theorem createRefund_provider_balance_rejection (w : World) (pid : String)
    (a : ℚ) (reason : String) (notes : Option String) (now : Nat) (p : Payment)
    (ppi : ProviderPaymentIntent)
    (hne : pid ≠ "")
    (hfind : w.server.storage.getPaymentByIntentId pid = some p)
    (hstat : p.status = "succeeded")
    (hprov : w.provider.intents.find? (fun q => q.id = pid) = some ppi)
    (ha0 : a ≠ 0)
    (hex : ppi.amount - ppi.refunded < jsRound (a * 100)) :
    createRefundHandler w pid (some a) reason notes now =
      (.err 500 "Error creating refund",
       [.providerRefund pid (some (jsRound (a * 100)))], w) := by
  unfold createRefundHandler
  rw [if_neg hne, hfind]
  dsimp only
  rw [if_neg (by simp [hstat]), if_neg ha0]
  unfold providerCreateRefund
  rw [hprov]
  dsimp only
  simp only [Option.getD_some]
  rw [if_pos (Or.inr hex)]

/-- Witness for C2 (amended): refunding 3 pounds (300 pence) against the
succeeded 200-pence payment pi_1 is rejected by the provider and stores
nothing. -/
theorem createRefund_provider_balance_rejection_witness :
    createRefundHandler twoPaymentWorld "pi_1" (some 3) "requested_by_customer" none 9 =
      (.err 500 "Error creating refund",
       [.providerRefund "pi_1" (some (jsRound (3 * 100)))], twoPaymentWorld) :=
  createRefund_provider_balance_rejection twoPaymentWorld "pi_1" 3
    "requested_by_customer" none 9 succPayment
    (ProviderPaymentIntent.mk "pi_1" 200 "gbp" "succeeded" 0)
    (by decide) (by with_unfolding_all decide) rfl
    (by with_unfolding_all decide) (by with_unfolding_all decide)
    (by with_unfolding_all decide)

/-- C2 (counterexample to the claim as stated): create a payment of 0.505
pounds (the handler sends round(50.5) = 51 pence to the provider but stores
0.505), reconcile it to succeeded, then refund in full: the provider approves
51 pence and the handler stores a succeeded refund of 0.51, so the sum of
succeeded refund amounts (0.51) exceeds the payment record amount (0.505).
No RefundExceedsBalanceError exists anywhere on this path. -/
theorem refund_sum_exceeds_amount_counterexample :
    c2w1.provider.intents.map (fun i => (i.id, i.amount)) = [("pi_0", 51)] ∧
    (c2w3.server.storage.getPayment 1).map Payment.amount = some (101/200) ∧
    (c2w3.server.storage.getPayment 1).map Payment.status = some "succeeded" ∧
    (c2w3.server.storage.refunds.map (fun r => (r.paymentId, r.amount, r.status))) =
      [(1, 51/100, "succeeded")] ∧
    sumSucceededRefunds c2w3.server.storage 1 = 51/100 ∧
    ((101:ℚ)/200 < 51/100) := by
  with_unfolding_all decide

/-- With a fresh counter, createPayment appends (the new Map key collides
with no existing one). -/
lemma createPayment_payments_append {st : MemStorage} (h : st.paymentIdsFresh)
    (ins : InsertPayment) (now : Nat) :
    ((st.createPayment ins now).2).payments =
      st.payments ++ [(st.createPayment ins now).1] := by
  unfold MemStorage.createPayment
  dsimp only
  exact mapSet_eq_append Payment.id (fun x hx => Nat.ne_of_lt (h x hx))

/-- createPayment keeps the fresh-counter invariant. -/
lemma createPayment_fresh {st : MemStorage} (h : st.paymentIdsFresh)
    (ins : InsertPayment) (now : Nat) :
    ((st.createPayment ins now).2).paymentIdsFresh := by
  intro p hp
  rw [createPayment_payments_append h] at hp
  show p.id < st.currentPaymentId + 1
  rcases List.mem_append.mp hp with h1 | h2
  · exact Nat.lt_trans (h p h1) (Nat.lt_succ_self _)
  · have : p = (st.createPayment ins now).1 := by simpa using h2
    rw [this]
    exact Nat.lt_succ_self _

/-- createPayment leaves the refund side untouched. -/
lemma createPayment_refundsFresh {st : MemStorage} (h : st.refundIdsFresh)
    (ins : InsertPayment) (now : Nat) :
    ((st.createPayment ins now).2).refundIdsFresh := h

/-- With a fresh counter, createRefund appends. -/
lemma createRefund_refunds_append {st : MemStorage} (h : st.refundIdsFresh)
    (ins : InsertRefund) (now : Nat) :
    ((st.createRefund ins now).2).refunds =
      st.refunds ++ [(st.createRefund ins now).1] := by
  unfold MemStorage.createRefund
  dsimp only
  exact mapSet_eq_append Refund.id (fun x hx => Nat.ne_of_lt (h x hx))

/-- createRefund keeps the fresh-counter invariant. -/
lemma createRefund_fresh {st : MemStorage} (h : st.refundIdsFresh)
    (ins : InsertRefund) (now : Nat) :
    ((st.createRefund ins now).2).refundIdsFresh := by
  intro r hr
  rw [createRefund_refunds_append h] at hr
  show r.id < st.currentRefundId + 1
  rcases List.mem_append.mp hr with h1 | h2
  · exact Nat.lt_trans (h r h1) (Nat.lt_succ_self _)
  · have : r = (st.createRefund ins now).1 := by simpa using h2
    rw [this]
    exact Nat.lt_succ_self _

/-- createRefund leaves the payment side untouched. -/
lemma createRefund_paymentsFresh {st : MemStorage} (h : st.paymentIdsFresh)
    (ins : InsertRefund) (now : Nat) :
    ((st.createRefund ins now).2).paymentIdsFresh := h

/-- Two states with the same payments list agree on every intent-id lookup. -/
lemma getByIntent_congr {st st' : MemStorage} (h : st.payments = st'.payments)
    (pid : String) :
    st.getPaymentByIntentId pid = st'.getPaymentByIntentId pid := by
  unfold MemStorage.getPaymentByIntentId
  rw [h]

/-- A payment found before createPayment is still found afterwards. -/
lemma getByIntent_createPayment_isSome {st : MemStorage} (h : st.paymentIdsFresh)
    (ins : InsertPayment) (now : Nat) (pid : String)
    (hs : (st.getPaymentByIntentId pid).isSome) :
    (((st.createPayment ins now).2).getPaymentByIntentId pid).isSome := by
  unfold MemStorage.getPaymentByIntentId at hs ⊢
  rw [createPayment_payments_append h, List.find?_append]
  obtain ⟨x, hx⟩ := Option.isSome_iff_exists.mp hs
  rw [hx]
  rfl

/-- The payment createPayment just stored is found by its intent id. -/
lemma getByIntent_createPayment_self {st : MemStorage} (h : st.paymentIdsFresh)
    (ins : InsertPayment) (now : Nat) :
    (((st.createPayment ins now).2).getPaymentByIntentId ins.paymentIntentId).isSome := by
  unfold MemStorage.getPaymentByIntentId
  rw [createPayment_payments_append h, List.find?_append]
  cases hf : List.find? (fun p : Payment => decide (p.paymentIntentId = ins.paymentIntentId)) st.payments
  · have hd : decide ((st.createPayment ins now).1.paymentIntentId = ins.paymentIntentId) = true :=
      decide_eq_true rfl
    simp [List.find?, hd]
  · simp [Option.or]

/-- The payment sync loop keeps the fresh-counter invariant. -/
lemma syncPaymentsLoop_fresh (mode : String) (now : Nat) :
    ∀ (l : List ProviderPISnap) (st : MemStorage), st.paymentIdsFresh →
      ((syncPaymentsLoop mode now l st).2).paymentIdsFresh := by
  intro l
  induction l with
  | nil => intro st h; exact h
  | cons pi rest ih =>
    intro st h
    unfold syncPaymentsLoop
    cases hg : st.getPaymentByIntentId pi.id
    · dsimp only
      exact ih _ (createPayment_fresh h _ now)
    · exact ih st h

/-- The payment sync loop leaves the refund side untouched. -/
lemma syncPaymentsLoop_refundsFresh (mode : String) (now : Nat) :
    ∀ (l : List ProviderPISnap) (st : MemStorage), st.refundIdsFresh →
      ((syncPaymentsLoop mode now l st).2).refundIdsFresh := by
  intro l
  induction l with
  | nil => intro st h; exact h
  | cons pi rest ih =>
    intro st h
    unfold syncPaymentsLoop
    cases hg : st.getPaymentByIntentId pi.id
    · dsimp only
      exact ih _ (createPayment_refundsFresh h _ now)
    · exact ih st h

/-- A payment found before the payment sync loop is still found afterwards. -/
lemma syncPaymentsLoop_isSome_mono (mode : String) (now : Nat) (pid : String) :
    ∀ (l : List ProviderPISnap) (st : MemStorage), st.paymentIdsFresh →
      (st.getPaymentByIntentId pid).isSome →
      ((syncPaymentsLoop mode now l st).2.getPaymentByIntentId pid).isSome := by
  intro l
  induction l with
  | nil => intro st _ hs; exact hs
  | cons pi rest ih =>
    intro st h hs
    unfold syncPaymentsLoop
    cases hg : st.getPaymentByIntentId pi.id
    · dsimp only
      exact ih _ (createPayment_fresh h _ now)
        (getByIntent_createPayment_isSome h _ now pid hs)
    · exact ih st h hs

/-- After the payment sync loop every listed snapshot is stored. -/
lemma syncPaymentsLoop_all_present (mode : String) (now : Nat) :
    ∀ (l : List ProviderPISnap) (st : MemStorage), st.paymentIdsFresh →
      ∀ pi ∈ l, ((syncPaymentsLoop mode now l st).2.getPaymentByIntentId pi.id).isSome := by
  intro l
  induction l with
  | nil => intro st _ pi hpi; cases hpi
  | cons pi0 rest ih =>
    intro st h pi hpi
    unfold syncPaymentsLoop
    rcases List.mem_cons.mp hpi with rfl | hmem
    · cases hg : st.getPaymentByIntentId pi.id
      · dsimp only
        exact syncPaymentsLoop_isSome_mono mode now pi.id rest _
          (createPayment_fresh h _ now)
          (getByIntent_createPayment_self h (syncPaymentData mode pi) now)
      · exact syncPaymentsLoop_isSome_mono mode now pi.id rest st h
          (by rw [hg]; rfl)
    · cases hg : st.getPaymentByIntentId pi0.id
      · dsimp only
        exact ih _ (createPayment_fresh h _ now) pi hmem
      · exact ih st h pi hmem

/-- The payment sync loop over a list whose ids are all stored creates
nothing and returns the state unchanged. -/
lemma syncPaymentsLoop_noop (mode : String) (now : Nat) :
    ∀ (l : List ProviderPISnap) (st : MemStorage),
      (∀ pi ∈ l, (st.getPaymentByIntentId pi.id).isSome) →
      syncPaymentsLoop mode now l st = (0, st) := by
  intro l
  induction l with
  | nil => intro st _; rfl
  | cons pi rest ih =>
    intro st h
    unfold syncPaymentsLoop
    obtain ⟨x, hx⟩ := Option.isSome_iff_exists.mp (h pi (List.mem_cons_self _ _))
    rw [hx]
    exact ih st (fun q hq => h q (List.mem_cons_of_mem _ hq))

/-- The refund sync loop leaves the payments list untouched. -/
lemma syncRefundsLoop_payments (mode : String) (now : Nat) :
    ∀ (l : List ProviderRefundSnap) (st : MemStorage),
      ((syncRefundsLoop mode now l st).2).payments = st.payments := by
  intro l
  induction l with
  | nil => intro st; rfl
  | cons r rest ih =>
    intro st
    unfold syncRefundsLoop
    cases hex : refundAlreadyExists st r
    · rw [if_neg (by decide)]
      cases hg : st.getPaymentByIntentId r.paymentIntentId
      · dsimp only
        exact ih st
      · dsimp only
        rw [ih]
        rfl
    · rw [if_pos rfl]
      exact ih st

/-- The refund sync loop keeps the fresh-counter invariant. -/
lemma syncRefundsLoop_fresh (mode : String) (now : Nat) :
    ∀ (l : List ProviderRefundSnap) (st : MemStorage), st.refundIdsFresh →
      ((syncRefundsLoop mode now l st).2).refundIdsFresh := by
  intro l
  induction l with
  | nil => intro st h; exact h
  | cons r rest ih =>
    intro st h
    unfold syncRefundsLoop
    cases hex : refundAlreadyExists st r
    · rw [if_neg (by decide)]
      cases hg : st.getPaymentByIntentId r.paymentIntentId
      · dsimp only
        exact ih st h
      · dsimp only
        exact ih _ (createRefund_fresh h _ now)
    · rw [if_pos rfl]
      exact ih st h

/-- A refund known to the store stays known after createRefund. -/
lemma refundAlreadyExists_createRefund_mono {st : MemStorage}
    (h : st.refundIdsFresh) (ins : InsertRefund) (now : Nat)
    {r : ProviderRefundSnap} (hex : refundAlreadyExists st r = true) :
    refundAlreadyExists ((st.createRefund ins now).2) r = true := by
  unfold refundAlreadyExists MemStorage.getRefundsByPaymentIntentId at hex ⊢
  rw [createRefund_refunds_append h, List.filter_append, List.any_append, hex]
  rfl

/-- The refund createRefund just stored witnesses its own snapshot. -/
lemma refundAlreadyExists_createRefund_self {st : MemStorage}
    (h : st.refundIdsFresh) (mode : String) (paymentId : Nat)
    (r : ProviderRefundSnap) (now : Nat) :
    refundAlreadyExists ((st.createRefund (syncRefundData mode paymentId r) now).2) r = true := by
  unfold refundAlreadyExists MemStorage.getRefundsByPaymentIntentId
  rw [createRefund_refunds_append h, List.filter_append, List.any_append]
  have hv : (List.filter (fun x : Refund => decide (x.paymentIntentId = r.paymentIntentId))
      [(st.createRefund (syncRefundData mode paymentId r) now).1]).any
      (fun er => er.refundId == r.id) = true := by
    simp [List.filter, List.any, MemStorage.createRefund, syncRefundData]
  rw [hv]
  simp

/-- A refund known to the store stays known through the whole loop. -/
lemma syncRefundsLoop_exists_mono (mode : String) (now : Nat)
    {r : ProviderRefundSnap} :
    ∀ (l : List ProviderRefundSnap) (st : MemStorage), st.refundIdsFresh →
      refundAlreadyExists st r = true →
      refundAlreadyExists ((syncRefundsLoop mode now l st).2) r = true := by
  intro l
  induction l with
  | nil => intro st _ hex; exact hex
  | cons r0 rest ih =>
    intro st h hex
    unfold syncRefundsLoop
    cases hex0 : refundAlreadyExists st r0
    · rw [if_neg (by decide)]
      cases hg : st.getPaymentByIntentId r0.paymentIntentId
      · dsimp only
        exact ih st h hex
      · dsimp only
        exact ih _ (createRefund_fresh h _ now)
          (refundAlreadyExists_createRefund_mono h _ now hex)
    · rw [if_pos rfl]
      exact ih st h hex

/-- After the refund sync loop every listed snapshot is either stored or has
no parent payment locally. -/
lemma syncRefundsLoop_post (mode : String) (now : Nat) :
    ∀ (l : List ProviderRefundSnap) (st : MemStorage), st.refundIdsFresh →
      ∀ r ∈ l,
        refundAlreadyExists ((syncRefundsLoop mode now l st).2) r = true ∨
        ((syncRefundsLoop mode now l st).2).getPaymentByIntentId r.paymentIntentId = none := by
  intro l
  induction l with
  | nil => intro st _ r hr; cases hr
  | cons r0 rest ih =>
    intro st h r hr
    unfold syncRefundsLoop
    rcases List.mem_cons.mp hr with rfl | hmem
    · cases hex0 : refundAlreadyExists st r
      · rw [if_neg (by decide)]
        cases hg : st.getPaymentByIntentId r.paymentIntentId
        · dsimp only
          refine Or.inr ?_
          rw [getByIntent_congr (syncRefundsLoop_payments mode now rest st) r.paymentIntentId]
          exact hg
        · dsimp only
          exact Or.inl (syncRefundsLoop_exists_mono mode now rest _
            (createRefund_fresh h _ now)
            (refundAlreadyExists_createRefund_self h mode _ r now))
      · rw [if_pos rfl]
        exact Or.inl (syncRefundsLoop_exists_mono mode now rest st h hex0)
    · cases hex0 : refundAlreadyExists st r0
      · rw [if_neg (by decide)]
        cases hg : st.getPaymentByIntentId r0.paymentIntentId
        · dsimp only
          exact ih st h r hmem
        · dsimp only
          exact ih _ (createRefund_fresh h _ now) r hmem
      · rw [if_pos rfl]
        exact ih st h r hmem

/-- The refund sync loop over a list of stored-or-parentless snapshots
creates nothing and returns the state unchanged. -/
lemma syncRefundsLoop_noop (mode : String) (now : Nat) :
    ∀ (l : List ProviderRefundSnap) (st : MemStorage),
      (∀ r ∈ l, refundAlreadyExists st r = true ∨
        st.getPaymentByIntentId r.paymentIntentId = none) →
      syncRefundsLoop mode now l st = (0, st) := by
  intro l
  induction l with
  | nil => intro st _; rfl
  | cons r0 rest ih =>
    intro st h
    unfold syncRefundsLoop
    cases hex0 : refundAlreadyExists st r0
    · rw [if_neg (by decide)]
      rcases h r0 (List.mem_cons_self _ _) with hex | hg
      · rw [hex0] at hex
        exact absurd hex (by decide)
      · rw [hg]
        exact ih st (fun q hq => h q (List.mem_cons_of_mem _ hq))
    · rw [if_pos rfl]
      exact ih st (fun q hq => h q (List.mem_cons_of_mem _ hq))

/-- C7: re-running the historical sync against the same provider listings
(no provider-side activity between the runs) creates zero payment and zero
refund records and returns the store byte-identical, for every store whose
auto-increment counters are ahead of the stored ids (as every reachable store
is). -/
theorem syncHistoricalData_idempotent (mode : String) (pis : List ProviderPISnap)
    (rs : List ProviderRefundSnap) (st : MemStorage) (t1 t2 : Nat)
    (hp : st.paymentIdsFresh) (hr : st.refundIdsFresh) :
    syncHandler mode pis rs (syncHandler mode pis rs st t1).2 t2 =
      ((0, 0), (syncHandler mode pis rs st t1).2) := by
  have hfresh1 : ((syncPaymentsLoop mode t1 pis st).2).paymentIdsFresh :=
    syncPaymentsLoop_fresh mode t1 pis st hp
  have hrfresh1 : ((syncPaymentsLoop mode t1 pis st).2).refundIdsFresh :=
    syncPaymentsLoop_refundsFresh mode t1 pis st hr
  have hall : ∀ pi ∈ pis,
      ((syncPaymentsLoop mode t1 pis st).2.getPaymentByIntentId pi.id).isSome :=
    syncPaymentsLoop_all_present mode t1 pis st hp
  have hall2 : ∀ pi ∈ pis,
      (((syncRefundsLoop mode t1 rs (syncPaymentsLoop mode t1 pis st).2).2).getPaymentByIntentId pi.id).isSome := by
    intro pi hpi
    rw [getByIntent_congr (syncRefundsLoop_payments mode t1 rs _) pi.id]
    exact hall pi hpi
  have hnoopP : syncPaymentsLoop mode t2 pis
      ((syncRefundsLoop mode t1 rs (syncPaymentsLoop mode t1 pis st).2).2) =
      (0, (syncRefundsLoop mode t1 rs (syncPaymentsLoop mode t1 pis st).2).2) :=
    syncPaymentsLoop_noop mode t2 pis _ hall2
  have hpost : ∀ r ∈ rs,
      refundAlreadyExists ((syncRefundsLoop mode t1 rs (syncPaymentsLoop mode t1 pis st).2).2) r = true ∨
      ((syncRefundsLoop mode t1 rs (syncPaymentsLoop mode t1 pis st).2).2).getPaymentByIntentId r.paymentIntentId = none :=
    syncRefundsLoop_post mode t1 rs (syncPaymentsLoop mode t1 pis st).2 hrfresh1
  have hnoopR : syncRefundsLoop mode t2 rs
      ((syncRefundsLoop mode t1 rs (syncPaymentsLoop mode t1 pis st).2).2) =
      (0, (syncRefundsLoop mode t1 rs (syncPaymentsLoop mode t1 pis st).2).2) :=
    syncRefundsLoop_noop mode t2 rs _ hpost
  show syncHandler mode pis rs
      ((syncRefundsLoop mode t1 rs (syncPaymentsLoop mode t1 pis st).2).2) t2 =
      ((0, 0), (syncRefundsLoop mode t1 rs (syncPaymentsLoop mode t1 pis st).2).2)
  unfold syncHandler
  rw [hnoopP]
  dsimp only
  rw [hnoopR]

/-- Witness for C7: syncing one payment and one refund snapshot into the
empty store twice; the second run reports (0, 0) and leaves the store as the
first run left it. -/
theorem syncHistoricalData_idempotent_witness :
    syncHandler "test" [c7pi] [c7r] (syncHandler "test" [c7pi] [c7r] MemStorage.empty 1).2 2 =
      ((0, 0), (syncHandler "test" [c7pi] [c7r] MemStorage.empty 1).2) :=
  syncHistoricalData_idempotent "test" [c7pi] [c7r] MemStorage.empty 1 2
    (fun p hp => absurd hp (List.not_mem_nil p))
    (fun r hr => absurd hr (List.not_mem_nil r))

end StripeFlow
